/-
  Verification of the analytics snapshot aggregation and presentation
  pipeline of the GitHub-analytics dashboard (frontend analytics script).

  The embedding follows the source closely:
  * JS numbers holding metric counters are modelled as `Nat` (the data model
    declares them non-negative integers); arithmetic that can go negative
    (deltas) is carried out in `Int`, and the percent computation in `Rat`
    (an idealisation of IEEE doubles on these integer-derived inputs).
  * `Number.prototype.toFixed(1)` is modelled as rounding to the nearest
    tenth over `Rat` (ties toward the larger value, matching the JS spec).
  * The DOM and the chart library are modelled as explicit state
    (`DashboardState`, `Charts`, `GridContent`) plus an effect trace
    (`Effect`); a `fetch` round trip is an input (`FetchResult`,
    `ExportResult`) consumed by the post-await part of the handler.
  * `toLocaleDateString` is modelled as an abstract rendering of the
    stored date value (`dateLabel`); styling constants of the chart
    configuration (colors, border widths, fill, tension) are presentation
    constants and are not part of the series model.
-/
import Mathlib

namespace Analytics

/-- One point-in-time snapshot record, as consumed by the dashboard:
fields `snapshot_date`, `stars`, `followers`, `following`, `public_repos`,
`total_commits`, optional `contribution_count` (defaulted to 0 at use
sites) and optional `language_stats` (an ordered mapping from language
name to numeric weight, modelled as an association list preserving the
source mapping's key order). -/
structure Snapshot where
  snapshot_date : Nat
  stars : Nat
  followers : Nat
  following : Nat
  public_repos : Nat
  total_commits : Nat
  contribution_count : Option Nat
  language_stats : Option (List (String × Nat))
  deriving Repr, DecidableEq

/-- Abstract rendering of a snapshot date
(`new Date(d.snapshot_date).toLocaleDateString()`). -/
def dateLabel (d : Nat) : String := toString d

/-- `x.toFixed(1)` on a rational: round `x` to the nearest tenth
(ties go to the larger value, as in the JS specification). -/
def toFixed1 (x : Rat) : Rat := ((round (x * 10) : Int) : Rat) / 10

/-- Direction class assigned to a metric-change indicator
(`positive` / `negative` / `neutral` CSS class in the source). -/
inductive Direction
  | positive
  | negative
  | neutral
  deriving Repr, DecidableEq

/-- The content `updateMetricChange` writes into a metric-change element:
the CSS class (direction), the arrow symbol, and the numeric pieces of
the text `symbol abs(change) (percentChange%)`. -/
structure MetricChangeView where
  direction : Direction
  symbol : String
  change : Int
  percentChange : Rat
  deriving Repr, DecidableEq

/-- `updateMetricChange(metric, oldValue, newValue)`:
`change = newValue - oldValue`;
`percentChange = oldValue > 0 ? ((change / oldValue) * 100).toFixed(1) : 0`;
class and symbol from the sign of `change`. -/
def updateMetricChange (oldValue newValue : Nat) : MetricChangeView :=
  let change : Int := (newValue : Int) - (oldValue : Int)
  let percentChange : Rat :=
    if (oldValue : Int) > 0 then toFixed1 (((change : Rat) / (oldValue : Rat)) * 100) else 0
  if change > 0 then
    { direction := .positive, symbol := "↑", change := change, percentChange := percentChange }
  else if change < 0 then
    { direction := .negative, symbol := "↓", change := change, percentChange := percentChange }
  else
    { direction := .neutral, symbol := "→", change := change, percentChange := percentChange }

/-- Content of the metrics grid element: the initial markup, the
empty-state markup written by `showEmptyState`, or the metric cards
written by `updateMetrics` (current values of the four tracked metrics
and their four change indicators). -/
inductive GridContent
  | initial
  | emptyStateHtml
  | metricsView (stars followers repos commits : Nat)
      (starsChange followersChange reposChange commitsChange : MetricChangeView)
  deriving Repr, DecidableEq

/-- `updateMetrics()`: returns early on an empty sequence; otherwise reads
`latest = analyticsData[analyticsData.length - 1]` and
`first = analyticsData[0]`, writes the four current values and the four
change indicators computed by `updateMetricChange(first.m, latest.m)`. -/
def updateMetrics (analyticsData : List Snapshot) (grid : GridContent) : GridContent :=
  if h : analyticsData = [] then grid
  else
    let latest := analyticsData.getLast h
    let first := analyticsData.head h
    GridContent.metricsView latest.stars latest.followers latest.public_repos latest.total_commits
      (updateMetricChange first.stars latest.stars)
      (updateMetricChange first.followers latest.followers)
      (updateMetricChange first.public_repos latest.public_repos)
      (updateMetricChange first.total_commits latest.total_commits)

/-- Display type of a chart (`type:` field of a chart configuration; the
chart-type selects offer `line` and `bar`, the language chart is a
`doughnut`). -/
inductive ChartType
  | line
  | bar
  | doughnut
  deriving Repr, DecidableEq

/-- One dataset of a chart configuration: its legend label (the language
chart's dataset has none) and its value sequence. Styling fields
(colors, border width, fill, tension) are presentation constants and are
not modelled. -/
structure Dataset where
  label : Option String
  data : List Nat
  deriving Repr, DecidableEq

/-- The data-relevant part of a chart configuration passed to
`new Chart(ctx, ...)`: display type, label sequence and datasets. -/
structure ChartSpec where
  ctype : ChartType
  labels : List String
  datasets : List Dataset
  deriving Repr, DecidableEq

/-- A live chart object held in the `charts` registry, remembered by the
configuration it was created from. -/
structure ChartObj where
  spec : ChartSpec
  deriving Repr, DecidableEq

/-- The `charts` registry: one optional live chart object per view. -/
structure Charts where
  stars : Option ChartObj
  followers : Option ChartObj
  repos : Option ChartObj
  commits : Option ChartObj
  language : Option ChartObj
  contribution : Option ChartObj
  deriving Repr, DecidableEq

/-- The empty `charts = {}` registry. -/
def Charts.empty : Charts := ⟨none, none, none, none, none, none⟩

/-- Chart views, used to tag destroy/create effects. -/
inductive ChartKey
  | stars
  | followers
  | repos
  | commits
  | language
  | contribution
  deriving Repr, DecidableEq

/-- Observable side effects of the pipeline on the rendering backend and
the user: destroying / creating a chart object, the language-chart
empty-state markup, alerts, the missing-dates console warning, and the
export file download. -/
inductive Effect
  | destroyChart (key : ChartKey) (c : ChartObj)
  | createChart (key : ChartKey) (spec : ChartSpec)
  | showLanguageEmptyState
  | renderedEmptyState
  | showError (msg : String)
  | showSuccess (msg : String)
  | warnMissingDates
  | downloadFile (name : String)
  deriving Repr, DecidableEq

/-- Series of the stars chart: date labels and the `stars` values, one
entry per snapshot, plus the selected display type. -/
def starsChartSpec (analyticsData : List Snapshot) (chartType : ChartType) : ChartSpec :=
  { ctype := chartType
  , labels := analyticsData.map (fun d => dateLabel d.snapshot_date)
  , datasets := [{ label := some "Total Stars", data := analyticsData.map (·.stars) }] }

/-- `renderStarsChart()`: destroys the previous stars chart if present,
then creates a chart from the current sequence and selected type. -/
def renderStarsChart (analyticsData : List Snapshot) (chartType : ChartType)
    (charts : Charts) : Charts × List Effect :=
  let destroyFx := match charts.stars with
    | some c => [Effect.destroyChart .stars c]
    | none => []
  let spec := starsChartSpec analyticsData chartType
  ({ charts with stars := some ⟨spec⟩ }, destroyFx ++ [Effect.createChart .stars spec])

/-- Series of the followers chart: one shared label sequence and the two
value sequences `followers` and `following`, one entry per snapshot. -/
def followersChartSpec (analyticsData : List Snapshot) (chartType : ChartType) : ChartSpec :=
  { ctype := chartType
  , labels := analyticsData.map (fun d => dateLabel d.snapshot_date)
  , datasets :=
      [ { label := some "Followers", data := analyticsData.map (·.followers) }
      , { label := some "Following", data := analyticsData.map (·.following) } ] }

/-- `renderFollowersChart()`: destroys the previous followers chart if
present, then creates the two-dataset chart. -/
def renderFollowersChart (analyticsData : List Snapshot) (chartType : ChartType)
    (charts : Charts) : Charts × List Effect :=
  let destroyFx := match charts.followers with
    | some c => [Effect.destroyChart .followers c]
    | none => []
  let spec := followersChartSpec analyticsData chartType
  ({ charts with followers := some ⟨spec⟩ }, destroyFx ++ [Effect.createChart .followers spec])

/-- Series of the repositories chart (always a line chart). -/
def reposChartSpec (analyticsData : List Snapshot) : ChartSpec :=
  { ctype := .line
  , labels := analyticsData.map (fun d => dateLabel d.snapshot_date)
  , datasets := [{ label := some "Public Repositories", data := analyticsData.map (·.public_repos) }] }

/-- `renderReposChart()`: destroy-if-present then create. -/
def renderReposChart (analyticsData : List Snapshot) (charts : Charts) : Charts × List Effect :=
  let destroyFx := match charts.repos with
    | some c => [Effect.destroyChart .repos c]
    | none => []
  let spec := reposChartSpec analyticsData
  ({ charts with repos := some ⟨spec⟩ }, destroyFx ++ [Effect.createChart .repos spec])

/-- Series of the commits chart (always a bar chart). -/
def commitsChartSpec (analyticsData : List Snapshot) : ChartSpec :=
  { ctype := .bar
  , labels := analyticsData.map (fun d => dateLabel d.snapshot_date)
  , datasets := [{ label := some "Total Commits", data := analyticsData.map (·.total_commits) }] }

/-- `renderCommitsChart()`: destroy-if-present then create. -/
def renderCommitsChart (analyticsData : List Snapshot) (charts : Charts) : Charts × List Effect :=
  let destroyFx := match charts.commits with
    | some c => [Effect.destroyChart .commits c]
    | none => []
  let spec := commitsChartSpec analyticsData
  ({ charts with commits := some ⟨spec⟩ }, destroyFx ++ [Effect.createChart .commits spec])

/-- Series of the contribution chart: `contribution_count || 0` per
snapshot (always a line chart). -/
def contributionChartSpec (analyticsData : List Snapshot) : ChartSpec :=
  { ctype := .line
  , labels := analyticsData.map (fun d => dateLabel d.snapshot_date)
  , datasets :=
      [{ label := some "Contributions"
       , data := analyticsData.map (fun d => d.contribution_count.getD 0) }] }

/-- `renderContributionChart()`: destroy-if-present then create. -/
def renderContributionChart (analyticsData : List Snapshot) (charts : Charts) :
    Charts × List Effect :=
  let destroyFx := match charts.contribution with
    | some c => [Effect.destroyChart .contribution c]
    | none => []
  let spec := contributionChartSpec analyticsData
  ({ charts with contribution := some ⟨spec⟩ }, destroyFx ++ [Effect.createChart .contribution spec])

/-- `renderLanguageChart()`: destroys the previous language chart if
present; reads `latest.language_stats || {}` from the LAST snapshot of
the sequence; if the mapping has no keys it writes the dedicated
language empty-state markup and returns without creating a chart,
otherwise it creates a doughnut chart with one label+value pair per
language key. (On an empty sequence the source would fault reading
`undefined.language_stats`; the pipeline only calls it on a non-empty
sequence, so that branch is modelled as a no-op after the destroy.) -/
def renderLanguageChart (analyticsData : List Snapshot) (charts : Charts) :
    Charts × List Effect :=
  let destroyFx := match charts.language with
    | some c => [Effect.destroyChart .language c]
    | none => []
  match analyticsData.getLast? with
  | none => (charts, destroyFx)
  | some latest =>
    let languageStats := latest.language_stats.getD []
    let labels := languageStats.map Prod.fst
    let data := languageStats.map Prod.snd
    if labels.length = 0 then
      (charts, destroyFx ++ [Effect.showLanguageEmptyState])
    else
      let spec : ChartSpec :=
        { ctype := .doughnut, labels := labels, datasets := [{ label := none, data := data }] }
      ({ charts with language := some ⟨spec⟩ }, destroyFx ++ [Effect.createChart .language spec])

/-- `renderCharts()`: runs the six render functions in source order,
threading the registry and concatenating the effect traces. -/
def renderCharts (analyticsData : List Snapshot) (starsType followersType : ChartType)
    (charts : Charts) : Charts × List Effect :=
  let (c1, f1) := renderStarsChart analyticsData starsType charts
  let (c2, f2) := renderFollowersChart analyticsData followersType c1
  let (c3, f3) := renderReposChart analyticsData c2
  let (c4, f4) := renderCommitsChart analyticsData c3
  let (c5, f5) := renderLanguageChart analyticsData c4
  let (c6, f6) := renderContributionChart analyticsData c5
  (c6, f1 ++ f2 ++ f3 ++ f4 ++ f5 ++ f6)

/-- One row of the data table: the rendered date and the six counters
(`contribution_count || 0`). -/
structure TableRow where
  date : String
  stars : Nat
  followers : Nat
  following : Nat
  public_repos : Nat
  total_commits : Nat
  contribution_count : Nat
  deriving Repr, DecidableEq

/-- `updateTable()`: clears the table body and appends one row per
snapshot, in sequence order. -/
def tableRows (analyticsData : List Snapshot) : List TableRow :=
  analyticsData.map fun s =>
    { date := dateLabel s.snapshot_date
    , stars := s.stars
    , followers := s.followers
    , following := s.following
    , public_repos := s.public_repos
    , total_commits := s.total_commits
    , contribution_count := s.contribution_count.getD 0 }

/-- The mutable state the script holds between events: whether
`currentUser` is set, the held snapshot sequence (`analyticsData`), the
live chart registry (`charts`), the metrics-grid content, the table-body
rows, the two date inputs (`none` models a missing/empty input, which is
falsy in the source's `!startDate` check), the two chart-type selects,
and whether the export modal is shown. -/
structure DashboardState where
  currentUser : Bool
  analyticsData : List Snapshot
  charts : Charts
  metricsGrid : GridContent
  tableBody : List TableRow
  startDate : Option String
  endDate : Option String
  starsChartType : ChartType
  followersChartType : ChartType
  exportModalOpen : Bool
  deriving Repr, DecidableEq

/-- Outcome of the snapshots `fetch` round trip as seen by
`loadAnalyticsData` after its awaits: a thrown transport error, or a
response with its `ok` flag and the optional `snapshots` field of the
parsed body (`data.snapshots || []`). -/
inductive FetchResult
  | transportError
  | response (ok : Bool) (snapshots : Option (List Snapshot))
  deriving Repr, DecidableEq

/-- The message passed to `showError` when a load fails. -/
def loadErrorMsg : String := "Failed to load analytics data. Please try again."

/-- The post-fetch part of `loadAnalyticsData`: a non-ok response throws,
and any thrown error is caught and surfaced via `showError`, leaving the
state untouched. On success the held sequence is replaced wholesale by
`data.snapshots || []`; if it is empty, `showEmptyState()` replaces the
metrics grid and the handler returns; otherwise `updateMetrics()`,
`renderCharts()` and `updateTable()` run in that order. -/
def applyLoadResponse (s : DashboardState) (result : FetchResult) :
    DashboardState × List Effect :=
  match result with
  | .transportError => (s, [Effect.showError loadErrorMsg])
  | .response ok snapshots? =>
    if !ok then (s, [Effect.showError loadErrorMsg])
    else
      let ad := snapshots?.getD []
      if ad.length = 0 then
        ({ s with analyticsData := ad, metricsGrid := GridContent.emptyStateHtml },
         [Effect.renderedEmptyState])
      else
        let grid := updateMetrics ad s.metricsGrid
        let (charts, fx) := renderCharts ad s.starsChartType s.followersChartType s.charts
        ({ s with analyticsData := ad, metricsGrid := grid, charts := charts,
                  tableBody := tableRows ad }, fx)

/-- `loadAnalyticsData()`: returns immediately when `currentUser` is not
set; warns and returns when either date input is empty; otherwise issues
the fetch, whose outcome `result` is handled by `applyLoadResponse`.
(The `forceRefresh` parameter of the source is unused in its body and is
omitted.) -/
def loadAnalyticsData (s : DashboardState) (result : FetchResult) :
    DashboardState × List Effect :=
  if !s.currentUser then (s, [])
  else
    match s.startDate, s.endDate with
    | some _, some _ => applyLoadResponse s result
    | _, _ => (s, [Effect.warnMissingDates])

/-- Overlapping loads: each in-flight request's response is applied by
`loadAnalyticsData` in COMPLETION order — the source carries no request
tag or sequence number, so every arriving response goes through the same
handler regardless of issuance order. -/
def applyCompletions (s : DashboardState) (results : List FetchResult) : DashboardState :=
  results.foldl (fun st r => (loadAnalyticsData st r).1) s

/-- Outcome of the export `fetch` round trip: a thrown transport error,
or a response with its `ok` flag. -/
inductive ExportResult
  | transportError
  | response (ok : Bool)
  deriving Repr, DecidableEq

/-- The message passed to `showError` when an export fails. -/
def exportErrorMsg : String := "Failed to export data. Please try again."

/-- `exportData(format)`: a non-ok response throws, and any thrown error
is caught and surfaced via `showError`, leaving all state untouched. On
success it downloads `analytics-export-<timestamp>.<format>`, hides the
export modal and reports success (`now` models `Date.now()`). -/
def exportData (s : DashboardState) (format : String) (now : Nat)
    (result : ExportResult) : DashboardState × List Effect :=
  match result with
  | .transportError => (s, [Effect.showError exportErrorMsg])
  | .response ok =>
    if !ok then (s, [Effect.showError exportErrorMsg])
    else
      ({ s with exportModalOpen := false },
       [ Effect.downloadFile ("analytics-export-" ++ toString now ++ "." ++ format)
       , Effect.showSuccess ("Data exported successfully as " ++ format.toUpper) ])

/-- `updateChartType(chartName, type)`: re-runs the matching render
function (which re-reads the select's current value from state); the
`type` argument is ignored by the source body. -/
def updateChartType (s : DashboardState) (chartName : String) (_type : ChartType) :
    DashboardState × List Effect :=
  if chartName = "stars" then
    let (charts, fx) := renderStarsChart s.analyticsData s.starsChartType s.charts
    ({ s with charts := charts }, fx)
  else if chartName = "followers" then
    let (charts, fx) := renderFollowersChart s.analyticsData s.followersChartType s.charts
    ({ s with charts := charts }, fx)
  else (s, [])

/-- The chart-type select `change` handler: the DOM select already holds
the new value when the handler fires, so the state's select field is
updated first and `updateChartType` is then invoked with it. -/
def onChartTypeChange (s : DashboardState) (chartName : String) (v : ChartType) :
    DashboardState × List Effect :=
  let s' :=
    if chartName = "stars" then { s with starsChartType := v }
    else if chartName = "followers" then { s with followersChartType := v }
    else s
  updateChartType s' chartName v

/-- A sample snapshot with no optional fields. -/
def sampleA : Snapshot :=
  { snapshot_date := 1, stars := 10, followers := 5, following := 2,
    public_repos := 3, total_commits := 7,
    contribution_count := none, language_stats := none }

/-- A sample snapshot with both optional fields present. -/
def sampleB : Snapshot :=
  { snapshot_date := 2, stars := 25, followers := 8, following := 2,
    public_repos := 4, total_commits := 9,
    contribution_count := some 6,
    language_stats := some [("TypeScript", 60), ("Python", 40)] }

/-- A sample dashboard state: authenticated, both dates set, one
snapshot held, no live charts. -/
def sampleState : DashboardState :=
  { currentUser := true
  , analyticsData := [sampleA]
  , charts := Charts.empty
  , metricsGrid := GridContent.initial
  , tableBody := tableRows [sampleA]
  , startDate := some "2024-01-01"
  , endDate := some "2024-01-31"
  , starsChartType := ChartType.line
  , followersChartType := ChartType.line
  , exportModalOpen := false }

end Analytics

namespace Analytics

/-- C2 counterexample: with baseline 3 and current 4 the code's percent
change is `toFixed(1)` of 100/3, i.e. 33.3, which is not
`(delta / baseline) × 100 = 100/3`. -/
theorem updateMetricChange_percent_rounded_counterexample :
    (updateMetricChange 3 4).percentChange ≠ (((4 : Rat) - 3) / 3) * 100 := by
  have h1 : (updateMetricChange 3 4).percentChange = toFixed1 ((1 / 3 : Rat) * 100) := by
    norm_num [updateMetricChange]
  have h2 : round ((1 / 3 : Rat) * 100 * 10) = 333 := by
    norm_num [round_eq]
  rw [h1, toFixed1, h2]
  norm_num

/-- C2 (amended): for every baseline and current value, the percent
change equals `(delta / baseline) × 100` rounded to one decimal place
(`toFixed(1)`) when the baseline is positive, and is exactly 0 when the
baseline is 0, regardless of the current value — total over `Rat`, so no
division-by-zero fault and no infinity/NaN. -/
theorem updateMetricChange_percentDelta (oldValue newValue : Nat) :
    (updateMetricChange oldValue newValue).percentChange =
      if 0 < oldValue then
        toFixed1 ((((newValue : Rat) - (oldValue : Rat)) / (oldValue : Rat)) * 100)
      else 0 := by
  have hcast : (((newValue : Int) - (oldValue : Int) : Int) : Rat)
      = (newValue : Rat) - (oldValue : Rat) := by push_cast; ring
  simp only [updateMetricChange, hcast, Int.natCast_pos]
  split <;> split <;> rfl

/-- C3: on a non-empty sequence the metrics grid shows, for each tracked
metric in stars/followers/publicRepos/totalCommits,
`current = last(sequence).m` and the change indicator computed from
`baseline = first(sequence).m`; and the indicator's delta is always
`newValue − oldValue`, hence `last(sequence).m − first(sequence).m`. -/
theorem updateMetrics_current_baseline_delta (data : List Snapshot) (h : data ≠ [])
    (grid : GridContent) :
    updateMetrics data grid =
      GridContent.metricsView (data.getLast h).stars (data.getLast h).followers
        (data.getLast h).public_repos (data.getLast h).total_commits
        (updateMetricChange (data.head h).stars (data.getLast h).stars)
        (updateMetricChange (data.head h).followers (data.getLast h).followers)
        (updateMetricChange (data.head h).public_repos (data.getLast h).public_repos)
        (updateMetricChange (data.head h).total_commits (data.getLast h).total_commits) ∧
    (∀ oldV newV : Nat, (updateMetricChange oldV newV).change = (newV : Int) - (oldV : Int)) := by
  refine ⟨?_, ?_⟩
  · simp [updateMetrics, h]
  · intro oldV newV
    simp only [updateMetricChange]
    split <;> try split
    all_goals rfl

/-- C3 witness: on the two-snapshot sequence `[sampleA, sampleB]`, the
grid shows sampleB's values with changes baselined at sampleA, and the
stars delta is 25 − 10. -/
theorem updateMetrics_current_baseline_delta_witness :
    updateMetrics [sampleA, sampleB] GridContent.initial =
      GridContent.metricsView sampleB.stars sampleB.followers
        sampleB.public_repos sampleB.total_commits
        (updateMetricChange sampleA.stars sampleB.stars)
        (updateMetricChange sampleA.followers sampleB.followers)
        (updateMetricChange sampleA.public_repos sampleB.public_repos)
        (updateMetricChange sampleA.total_commits sampleB.total_commits) ∧
    (updateMetricChange sampleA.stars sampleB.stars).change = (25 : Int) - 10 := by
  have h := updateMetrics_current_baseline_delta [sampleA, sampleB] (by simp) GridContent.initial
  exact ⟨by simpa using h.1, by simpa [sampleA, sampleB] using h.2 sampleA.stars sampleB.stars⟩

/-- C4: the categorical language series depends on the LAST snapshot of
the sequence only; when its `language_stats` mapping is empty or absent
the builder emits the dedicated language empty-state signal — distinct
from a general error and with no chart creation, leaving the registry
untouched — and when it is non-empty the created doughnut chart carries
one label per language key and one value per language weight. -/
theorem renderLanguageChart_categorical (data : List Snapshot) (h : data ≠ [])
    (charts : Charts) :
    renderLanguageChart data charts = renderLanguageChart [data.getLast h] charts ∧
    ((data.getLast h).language_stats.getD [] = [] →
      Effect.showLanguageEmptyState ∈ (renderLanguageChart data charts).2 ∧
      (∀ spec, Effect.createChart ChartKey.language spec ∉ (renderLanguageChart data charts).2) ∧
      (∀ msg, Effect.showError msg ∉ (renderLanguageChart data charts).2) ∧
      (renderLanguageChart data charts).1 = charts) ∧
    ((data.getLast h).language_stats.getD [] ≠ [] →
      (renderLanguageChart data charts).1.language =
        some ⟨{ ctype := ChartType.doughnut
              , labels := ((data.getLast h).language_stats.getD []).map Prod.fst
              , datasets := [{ label := none
                             , data := ((data.getLast h).language_stats.getD []).map Prod.snd }] }⟩) := by
  have hlast : data.getLast? = some (data.getLast h) := List.getLast?_eq_getLast data h
  refine ⟨?_, ?_, ?_⟩
  · simp [renderLanguageChart, hlast]
  · intro hempty
    rcases hcl : charts.language with _ | c <;>
      simp [renderLanguageChart, hlast, hempty, hcl]
  · intro hne
    rcases hcl : charts.language with _ | c <;>
      simp [renderLanguageChart, hlast, hcl, List.length_eq_zero, hne]

/-- C4 witness: a last snapshot without language stats yields the
empty-categorical signal, no chart creation and an untouched registry;
a last snapshot with two languages yields a doughnut chart with those
two label+value pairs. -/
theorem renderLanguageChart_categorical_witness :
    Effect.showLanguageEmptyState ∈ (renderLanguageChart [sampleA] Charts.empty).2 ∧
    Effect.createChart ChartKey.language (starsChartSpec [] ChartType.line) ∉
      (renderLanguageChart [sampleA] Charts.empty).2 ∧
    (renderLanguageChart [sampleA] Charts.empty).1 = Charts.empty ∧
    (renderLanguageChart [sampleB] Charts.empty).1.language =
      some ⟨{ ctype := ChartType.doughnut
            , labels := ["TypeScript", "Python"]
            , datasets := [{ label := none, data := [60, 40] }] }⟩ := by
  have hA := renderLanguageChart_categorical [sampleA] (by simp) Charts.empty
  have hB := renderLanguageChart_categorical [sampleB] (by simp) Charts.empty
  have hAe := hA.2.1 (by simp [sampleA])
  refine ⟨hAe.1, hAe.2.1 _, hAe.2.2.2, ?_⟩
  have := hB.2.2 (by simp [sampleB])
  simpa [sampleB] using this

/-- C5: the followers chart holds exactly the two value sequences
Followers and Following over one shared label sequence, and for every
index `i` the label and both values at `i` come from `sequence[i]`:
the rendered date, the `followers` field and the `following` field. -/
theorem renderFollowersChart_index_aligned (data : List Snapshot) (ct : ChartType)
    (charts : Charts) (i : Nat) :
    (renderFollowersChart data ct charts).1.followers = some ⟨followersChartSpec data ct⟩ ∧
    (followersChartSpec data ct).labels[i]? =
      (data[i]?).map (fun d => dateLabel d.snapshot_date) ∧
    ∃ fd gd : List Nat,
      (followersChartSpec data ct).datasets =
        [{ label := some "Followers", data := fd }, { label := some "Following", data := gd }] ∧
      fd[i]? = (data[i]?).map (fun d => d.followers) ∧
      gd[i]? = (data[i]?).map (fun d => d.following) := by
  refine ⟨rfl, ?_, data.map (fun d : Snapshot => d.followers),
    data.map (fun d : Snapshot => d.following), rfl, ?_, ?_⟩ <;>
    simp [followersChartSpec]

/-- C6: an ok response carrying zero snapshots takes the dedicated
empty-state path: the metrics grid becomes the empty-state markup, the
pipeline's only effect is the empty-state render — no aggregator output
(no `metricsView`), no series-builder output (no chart destroy/create),
no table rebuild. -/
theorem loadAnalyticsData_empty_result (s : DashboardState) (a b : String)
    (hu : s.currentUser = true) (hs : s.startDate = some a) (he : s.endDate = some b) :
    loadAnalyticsData s (FetchResult.response true (some [])) =
      ({ s with analyticsData := [], metricsGrid := GridContent.emptyStateHtml },
       [Effect.renderedEmptyState]) := by
  simp [loadAnalyticsData, applyLoadResponse, hu, hs, he]

/-- C6 witness: the empty-result path evaluated on the sample state. -/
theorem loadAnalyticsData_empty_result_witness :
    loadAnalyticsData sampleState (FetchResult.response true (some [])) =
      ({ sampleState with analyticsData := [], metricsGrid := GridContent.emptyStateHtml },
       [Effect.renderedEmptyState]) :=
  loadAnalyticsData_empty_result sampleState "2024-01-01" "2024-01-31" rfl rfl rfl

/-- C7: on any non-success export outcome — a thrown transport error or
a response with `ok = false` — the whole dashboard state is returned
unchanged (in particular the held snapshot sequence and the date-range
selection) and the only effect is the export-failure report. -/
theorem exportData_failure_preserves_state (s : DashboardState) (format : String)
    (now : Nat) :
    exportData s format now ExportResult.transportError =
      (s, [Effect.showError exportErrorMsg]) ∧
    exportData s format now (ExportResult.response false) =
      (s, [Effect.showError exportErrorMsg]) :=
  ⟨rfl, rfl⟩

/-- C8: every render function that finds a live chart object for its view
destroys it FIRST, before creating the replacement (for the five series
charts the effect trace is exactly destroy-then-create; for the language
chart the destroy is the first effect of whatever follows); and a
display-type change regenerates only the visual: the held sequence is
untouched, the view's chart is rebuilt from the same sequence, and its
label sequence and dataset value sequences are identical under any two
display types. -/
theorem chart_rerender_discipline (data : List Snapshot) (ct v t2 : ChartType)
    (charts : Charts) (c : ChartObj) (s : DashboardState) :
    (renderStarsChart data ct { charts with stars := some c }).2 =
      [Effect.destroyChart ChartKey.stars c,
       Effect.createChart ChartKey.stars (starsChartSpec data ct)] ∧
    (renderFollowersChart data ct { charts with followers := some c }).2 =
      [Effect.destroyChart ChartKey.followers c,
       Effect.createChart ChartKey.followers (followersChartSpec data ct)] ∧
    (renderReposChart data { charts with repos := some c }).2 =
      [Effect.destroyChart ChartKey.repos c,
       Effect.createChart ChartKey.repos (reposChartSpec data)] ∧
    (renderCommitsChart data { charts with commits := some c }).2 =
      [Effect.destroyChart ChartKey.commits c,
       Effect.createChart ChartKey.commits (commitsChartSpec data)] ∧
    (renderContributionChart data { charts with contribution := some c }).2 =
      [Effect.destroyChart ChartKey.contribution c,
       Effect.createChart ChartKey.contribution (contributionChartSpec data)] ∧
    (renderLanguageChart data { charts with language := some c }).2.head? =
      some (Effect.destroyChart ChartKey.language c) ∧
    ((onChartTypeChange s "stars" v).1.analyticsData = s.analyticsData ∧
     (onChartTypeChange s "stars" v).1.charts.stars =
       some ⟨starsChartSpec s.analyticsData v⟩ ∧
     (starsChartSpec s.analyticsData v).labels = (starsChartSpec s.analyticsData t2).labels ∧
     (starsChartSpec s.analyticsData v).datasets.map Dataset.data =
       (starsChartSpec s.analyticsData t2).datasets.map Dataset.data) ∧
    ((onChartTypeChange s "followers" v).1.analyticsData = s.analyticsData ∧
     (onChartTypeChange s "followers" v).1.charts.followers =
       some ⟨followersChartSpec s.analyticsData v⟩ ∧
     (followersChartSpec s.analyticsData v).labels =
       (followersChartSpec s.analyticsData t2).labels ∧
     (followersChartSpec s.analyticsData v).datasets.map Dataset.data =
       (followersChartSpec s.analyticsData t2).datasets.map Dataset.data) := by
  refine ⟨rfl, rfl, rfl, rfl, rfl, ?_, ⟨rfl, rfl, rfl, rfl⟩, ⟨rfl, rfl, rfl, rfl⟩⟩
  rcases hlast : data.getLast? with _ | latest
  · simp [renderLanguageChart, hlast]
  · simp only [renderLanguageChart, hlast]
    split <;> simp

/-- C9: a failed load — a thrown transport error or a non-ok response —
leaves the entire state unchanged (in particular the previously held
snapshot sequence) and only reports the load error. -/
theorem loadAnalyticsData_failure_preserves (s : DashboardState) (a b : String)
    (hu : s.currentUser = true) (hs : s.startDate = some a) (he : s.endDate = some b) :
    loadAnalyticsData s FetchResult.transportError = (s, [Effect.showError loadErrorMsg]) ∧
    ∀ snapshots?, loadAnalyticsData s (FetchResult.response false snapshots?) =
      (s, [Effect.showError loadErrorMsg]) := by
  constructor
  · simp [loadAnalyticsData, applyLoadResponse, hu, hs, he]
  · intro snapshots?
    simp [loadAnalyticsData, applyLoadResponse, hu, hs, he]

/-- C9 witness: both failure modes evaluated on the sample state, whose
held sequence `[sampleA]` survives unchanged. -/
theorem loadAnalyticsData_failure_preserves_witness :
    loadAnalyticsData sampleState FetchResult.transportError =
      (sampleState, [Effect.showError loadErrorMsg]) ∧
    loadAnalyticsData sampleState (FetchResult.response false (some [sampleB])) =
      (sampleState, [Effect.showError loadErrorMsg]) := by
  have h := loadAnalyticsData_failure_preserves sampleState "2024-01-01" "2024-01-31" rfl rfl rfl
  exact ⟨h.1, h.2 (some [sampleB])⟩

/-- C10: a successful load of zero snapshots replaces the held sequence
by the empty one and swaps only the metrics grid for the empty-state
markup; the chart registry and the table body are left exactly as they
were (no chart is destroyed or created, no re-render), so they continue
to show the previous range's data. -/
theorem loadAnalyticsData_empty_frame (s : DashboardState) (a b : String)
    (hu : s.currentUser = true) (hs : s.startDate = some a) (he : s.endDate = some b) :
    (loadAnalyticsData s (FetchResult.response true (some []))).1.analyticsData = [] ∧
    (loadAnalyticsData s (FetchResult.response true (some []))).1.charts = s.charts ∧
    (loadAnalyticsData s (FetchResult.response true (some []))).1.tableBody = s.tableBody ∧
    (loadAnalyticsData s (FetchResult.response true (some []))).1.metricsGrid =
      GridContent.emptyStateHtml ∧
    (∀ k spec, Effect.createChart k spec ∉ (loadAnalyticsData s (FetchResult.response true (some []))).2) ∧
    (∀ k c, Effect.destroyChart k c ∉ (loadAnalyticsData s (FetchResult.response true (some []))).2) := by
  simp [loadAnalyticsData, applyLoadResponse, hu, hs, he]

/-- C10 witness: the zero-snapshot success path evaluated on the sample
state: the sequence is emptied, the grid shows the empty state, and the
registry and table rows are untouched. -/
theorem loadAnalyticsData_empty_frame_witness :
    (loadAnalyticsData sampleState (FetchResult.response true (some []))).1.analyticsData = [] ∧
    (loadAnalyticsData sampleState (FetchResult.response true (some []))).1.charts = Charts.empty ∧
    (loadAnalyticsData sampleState (FetchResult.response true (some []))).1.tableBody =
      tableRows [sampleA] ∧
    (loadAnalyticsData sampleState (FetchResult.response true (some []))).1.metricsGrid =
      GridContent.emptyStateHtml ∧
    Effect.createChart ChartKey.stars (starsChartSpec [sampleA] ChartType.line) ∉
      (loadAnalyticsData sampleState (FetchResult.response true (some []))).2 := by
  have h := loadAnalyticsData_empty_frame sampleState "2024-01-01" "2024-01-31" rfl rfl rfl
  exact ⟨h.1, h.2.1, h.2.2.1, h.2.2.2.1,
    h.2.2.2.2.1 ChartKey.stars (starsChartSpec [sampleA] ChartType.line)⟩

/-- C1: two overlapping loads — R1 issued first carrying `[sampleA]`,
R2 issued second carrying `[sampleB]` — whose responses complete in the
order R2 then R1. The handler applies every arriving response unguarded
(there is no request tag or sequence number), so the held sequence ends
as R1's `[sampleA]`, the stale first-issued request's data, not R2's
`[sampleB]` as the claim mandates. -/
theorem loadAnalyticsData_race_last_completion_wins :
    (applyCompletions sampleState
        [FetchResult.response true (some [sampleB]),
         FetchResult.response true (some [sampleA])]).analyticsData = [sampleA] ∧
    ([sampleA] : List Snapshot) ≠ [sampleB] := by
  refine ⟨rfl, ?_⟩
  simp [sampleA, sampleB]

end Analytics
